import Mathlib

/-!
Verification of the stller face-selection and multi-solid STL export core.

The development shallowly embeds the two Python source files:
  * `split_stl.py`  : normal-match and bounding-box face selection,
  * `stller.py`     : vertex-adjacency, angle-bounded region growing,
    the multi-group export pipeline and the ASCII multi-solid writer.

Machine floats are modelled by real numbers.  Library collaborators
(trimesh / pyvista routines such as face-normal computation, face
centroids and cell extraction) are modelled from the contracts the
specification gives for them; each such definition carries a doc
comment saying so.
-/

open scoped Classical

noncomputable section

/-- A 3D vector (a triple of reals); models a numpy length-3 float array. -/
abbrev Vec3 : Type := ℝ × ℝ × ℝ

/-- The zero vector. -/
def zero3 : Vec3 := ((0 : ℝ), (0 : ℝ), (0 : ℝ))

/-- Componentwise subtraction of 3D vectors. -/
def sub3 (u v : Vec3) : Vec3 := (u.1 - v.1, u.2.1 - v.2.1, u.2.2 - v.2.2)

/-- Componentwise addition of 3D vectors. -/
def add3 (u v : Vec3) : Vec3 := (u.1 + v.1, u.2.1 + v.2.1, u.2.2 + v.2.2)

/-- Scalar multiple of a 3D vector. -/
def smul3 (a : ℝ) (v : Vec3) : Vec3 := (a * v.1, a * v.2.1, a * v.2.2)

/-- Dot product, as in `np.dot` on length-3 arrays. -/
def dot3 (u v : Vec3) : ℝ := u.1 * v.1 + u.2.1 * v.2.1 + u.2.2 * v.2.2

/-- Cross product of 3D vectors. -/
def cross3 (u v : Vec3) : Vec3 :=
  (u.2.1 * v.2.2 - u.2.2 * v.2.1,
   u.2.2 * v.1 - u.1 * v.2.2,
   u.1 * v.2.1 - u.2.1 * v.1)

/-- Euclidean norm, as in `np.linalg.norm` on a length-3 array. -/
def norm3 (v : Vec3) : ℝ := Real.sqrt (dot3 v v)

/-- `v / np.linalg.norm(v)` : componentwise division by the norm. -/
def normalize3 (v : Vec3) : Vec3 := (v.1 / norm3 v, v.2.1 / norm3 v, v.2.2 / norm3 v)

/-- A triangle mesh: vertex positions, triangular faces (triples of vertex
indices, face id = list position) and the mutable cell-normal data that
`compute_normals(inplace=True)` stores on the pyvista mesh object. -/
structure TriMesh where
  vertices : List Vec3
  faces : List (ℕ × ℕ × ℕ)
  storedNormals : Option (List Vec3)

/-- Number of faces (`mesh.n_cells` / number of rows of the face array). -/
def nFaces (m : TriMesh) : ℕ := m.faces.length

/-- The point ids of cell `f` (`cell.point_ids`); empty when `f` is out of
range, which the sources never do without raising first. -/
def faceVertIds (m : TriMesh) (f : ℕ) : List ℕ :=
  match m.faces[f]? with
  | some t => [t.1, t.2.1, t.2.2]
  | none => []

/-- Position of vertex `i` (`mesh.points[i]`); zero for an out-of-range id,
which the sources never produce on a well-formed mesh. -/
def vertexPos (m : TriMesh) (i : ℕ) : Vec3 := (m.vertices[i]?).getD zero3

/-- Modelled from the spec: the unit normal of the triangle with the given
vertex positions, the normalized cross product of two edge vectors in the
stored winding order, and the zero vector for a zero-area triangle.  The
actual computation lives in the trimesh / pyvista libraries, outside the
repository. -/
def triNormal (pa pb pc : Vec3) : Vec3 :=
  let cr := cross3 (sub3 pb pa) (sub3 pc pa)
  if cr = zero3 then zero3 else normalize3 cr

/-- Modelled from the spec: the face normal of face `f`
(`mesh.face_normals[f]` / `mesh.cell_normals[f]`), zero for a degenerate
face, zero also for an out-of-range id. -/
def faceNormal (m : TriMesh) (f : ℕ) : Vec3 :=
  match m.faces[f]? with
  | some t => triNormal (vertexPos m t.1) (vertexPos m t.2.1) (vertexPos m t.2.2)
  | none => zero3

/-- `select_faces_by_normal` from `split_stl.py`: normalize the target,
dot it with every face normal and keep the faces with
`np.abs(dots - 1.0) < tol`. -/
def select_faces_by_normal (m : TriMesh) (target : Vec3) (tol : ℝ) : Finset ℕ :=
  (Finset.range (nFaces m)).filter
    (fun f => |dot3 (faceNormal m f) (normalize3 target) - 1| < tol)

/-- Modelled from the spec: the centroid of face `f`
(`mesh.triangles_center[f]`, a trimesh property), the mean of the three
vertex positions of the face. -/
def triangles_center (m : TriMesh) (f : ℕ) : Vec3 :=
  match m.faces[f]? with
  | some t =>
      smul3 (1 / 3)
        (add3 (add3 (vertexPos m t.1) (vertexPos m t.2.1)) (vertexPos m t.2.2))
  | none => zero3

/-- The bounding-box patch from `main` in `split_stl.py`: keep the faces
whose centroid lies inside the closed interval on every axis. -/
def bbox_patch (m : TriMesh) (xmin xmax ymin ymax zmin zmax : ℝ) : Finset ℕ :=
  (Finset.range (nFaces m)).filter (fun f =>
    xmin ≤ (triangles_center m f).1 ∧ (triangles_center m f).1 ≤ xmax ∧
    ymin ≤ (triangles_center m f).2.1 ∧ (triangles_center m f).2.1 ≤ ymax ∧
    zmin ≤ (triangles_center m f).2.2 ∧ (triangles_center m f).2.2 ≤ zmax)

/-- `point_to_cells[pt]` from `select_faces_by_region_growing`: the cells
containing point `pt`. -/
def point_to_cells (m : TriMesh) (pt : ℕ) : Finset ℕ :=
  (Finset.range (nFaces m)).filter (fun c => pt ∈ faceVertIds m c)

/-- `cell_neighbors[c]` from `select_faces_by_region_growing` in
`stller.py`: every cell other than `c` that shares at least one point
with `c`, collected through the `point_to_cells` inverse index. -/
def cellNeighbors (m : TriMesh) (c : ℕ) : Finset ℕ :=
  ((faceVertIds m c).toFinset.biUnion (fun pt => point_to_cells m pt)).erase c

/-- Modelled from the spec: `neighborsOf(faceId)`, the faces sharing at
least one vertex with the given face, the face itself excluded
(vertex-adjacency, deliberately permissive). -/
def neighborsOf (m : TriMesh) (f : ℕ) : Finset ℕ :=
  (Finset.range (nFaces m)).filter
    (fun g => g ≠ f ∧ ∃ v ∈ faceVertIds m f, v ∈ faceVertIds m g)

lemma cellNeighbors_eq_neighborsOf (m : TriMesh) : cellNeighbors m = neighborsOf m := by
  funext c
  ext g
  simp only [cellNeighbors, neighborsOf, Finset.mem_erase, Finset.mem_biUnion,
    List.mem_toFinset, point_to_cells, Finset.mem_filter, Finset.mem_range]
  tauto

/-- Exceptions the embedded code can raise; the sources only ever raise
(via numpy / pyvista indexing) out-of-range index errors. -/
inductive PyErr where
  | indexError
deriving DecidableEq

/-- `np.degrees(np.arccos(np.clip(d, -1.0, 1.0)))` applied to the dot
product of the seed normal with a candidate normal, from
`select_faces_by_region_growing` (the spec quotes the identical formula). -/
def angleToSeedDeg (seedNormal candNormal : Vec3) : ℝ :=
  Real.arccos (min (max (dot3 seedNormal candNormal) (-1)) 1) * (180 / Real.pi)

/-- The `while candidates:` loop of `select_faces_by_region_growing`.
Per sweep: a candidate not yet selected is accepted exactly when its
angle to the fixed seed normal is within tolerance; the accepted faces
join the selection and their neighbors not already selected and not in
the current candidate set become the next candidate set.  (The Python
sweep mutates `selected_faces` while iterating, but every face it adds
during the sweep is itself a member of `candidates`, which the
`not in candidates` test already excludes, so the set-level step below
is the order-independent meaning of the sweep.)  The loop is driven by
explicit fuel; every sweep that accepts at least one face strictly grows
the selection inside `range (nFaces m)` and a sweep that accepts nothing
empties the candidate set, so `nFaces m + 2` fuel dominates the loop. -/
def growLoop (m : TriMesh) (seedNormal : Vec3) (tol : ℝ) :
    ℕ → Finset ℕ → Finset ℕ → Finset ℕ
  | 0, selected, _ => selected
  | fuel + 1, selected, candidates =>
    if candidates.Nonempty then
      let accepted := candidates.filter
        (fun f => f ∉ selected ∧ angleToSeedDeg seedNormal (faceNormal m f) ≤ tol)
      let selected2 := selected ∪ accepted
      let newCandidates := ((accepted.biUnion (cellNeighbors m)) \ selected2) \ candidates
      growLoop m seedNormal tol fuel selected2 newCandidates
    else selected

/-- The mesh after `mesh.compute_normals(cell_normals=True, ...,
inplace=True)`: same vertices and faces, with the freshly computed cell
normals stored on the object. -/
def computeNormalsInplace (m : TriMesh) : TriMesh :=
  { vertices := m.vertices
    faces := m.faces
    storedNormals := some ((List.range (nFaces m)).map (faceNormal m)) }

/-- `select_faces_by_region_growing` from `stller.py`.  It first runs
`compute_normals(inplace=True)` on the mesh (a visible mutation, returned
as the first component), then reads `face_normals[seed_face_id]` — an
IndexError when the seed is out of range — and finally runs the
breadth-first growth from the seed with `selected = {seed}` and initial
candidates `cell_neighbors[seed]`. -/
def select_faces_by_region_growing (m : TriMesh) (seed : ℕ) (tol : ℝ) :
    TriMesh × Except PyErr (Finset ℕ) :=
  let m2 := computeNormalsInplace m
  if seed < nFaces m then
    (m2, Except.ok
      (growLoop m (faceNormal m seed) tol (nFaces m + 2) {seed} (cellNeighbors m seed)))
  else (m2, Except.error PyErr.indexError)

/-- Modelled from the spec: the breadth-first region-growing algorithm of
section 4.2, step 2 — for each frontier face not already selected, accept
it exactly when `degrees(acos(clamp(dot(normalOf(seedFace), normalOf(f)),
-1, 1)))` is at most the tolerance, always against the seed normal; the
neighbors of accepted faces not already selected and not in the frontier
form the next frontier.  Fuel bounds the while loop as in `growLoop`. -/
def specLoop (m : TriMesh) (seedNormal : Vec3) (tol : ℝ) :
    ℕ → Finset ℕ → Finset ℕ → Finset ℕ
  | 0, selected, _ => selected
  | fuel + 1, selected, frontier =>
    if frontier.Nonempty then
      let accepted := frontier.filter
        (fun f => f ∉ selected ∧ angleToSeedDeg seedNormal (faceNormal m f) ≤ tol)
      let selected2 := selected ∪ accepted
      let nextFrontier := ((accepted.biUnion (neighborsOf m)) \ selected2) \ frontier
      specLoop m seedNormal tol fuel selected2 nextFrontier
    else selected

/-- Modelled from the spec: `RegionGrowing(seedFace, angleToleranceDegrees)`
per section 4.2, started with `selected = {seedFace}` and
`frontier = neighborsOf(seedFace)`. -/
def regionGrowingSpec (m : TriMesh) (seed : ℕ) (tol : ℝ) : Finset ℕ :=
  specLoop m (faceNormal m seed) tol (nFaces m + 2) {seed} (neighborsOf m seed)

lemma growLoop_eq_specLoop (m : TriMesh) (seedNormal : Vec3) (tol : ℝ) :
    ∀ fuel selected candidates,
      growLoop m seedNormal tol fuel selected candidates =
        specLoop m seedNormal tol fuel selected candidates := by
  intro fuel
  induction fuel with
  | zero => intro selected candidates; rfl
  | succ fuel ih =>
    intro selected candidates
    simp only [growLoop, specLoop, cellNeighbors_eq_neighborsOf]
    split
    · exact ih _ _
    · rfl

/-- One `facet ... endfacet` block written by `write_ascii_stl_solid`:
the facet normal line and the three vertex lines (numeric formatting is
abstracted; the values are the ones printed). -/
structure Facet where
  normal : Vec3
  verts : List Vec3

/-- One `solid <name> ... endsolid <name>` block of the ASCII output. -/
structure Solid where
  name : String
  facets : List Facet

/-- The selected face ids of a group in the order `extract_cells` keeps
them (ascending face id). -/
def keptList (g : Finset ℕ) : List ℕ := Finset.sort (fun a b => a ≤ b) g

/-- The original vertex-index triples of the kept faces.  The sources
only reach extraction with in-range ids (an out-of-range id raises at
the mask assignment before extraction), so the default for an
out-of-range id is never observable. -/
def keptFaces (m : TriMesh) (g : Finset ℕ) : List (ℕ × ℕ × ℕ) :=
  (keptList g).map (fun f => (m.faces[f]?).getD (0, 0, 0))

/-- The vertex ids referenced by the kept faces, deduplicated; the
renumbering target of the extracted submesh. -/
def usedVerts (m : TriMesh) (g : Finset ℕ) : List ℕ :=
  ((keptFaces m g).flatMap (fun t => [t.1, t.2.1, t.2.2])).dedup

/-- Modelled from the spec: `original_mesh.extract_cells(mask)` (pyvista),
i.e. the induced submesh of the faces of `g` in ascending id order,
keeping only the referenced vertices, renumbering the indices and
preserving the winding of every kept face. -/
def extract_cells (m : TriMesh) (g : Finset ℕ) : TriMesh :=
  { vertices := (usedVerts m g).map (fun v => vertexPos m v)
    faces := (keptFaces m g).map (fun t =>
      ((usedVerts m g).indexOf t.1, (usedVerts m g).indexOf t.2.1,
        (usedVerts m g).indexOf t.2.2))
    storedNormals := none }

/-- `write_ascii_stl_solid` from `stller.py`: one solid block holding, for
every cell of the mesh in order, its recomputed cell normal and its three
vertex positions (`mesh.points[pid] for pid in cell.point_ids`). -/
def write_ascii_stl_solid (m : TriMesh) (name : String) : Solid :=
  { name := name
    facets := (List.range (nFaces m)).map (fun i =>
      { normal := faceNormal m i
        verts := (faceVertIds m i).map (vertexPos m) }) }

/-- The body of the `try:` block of `export_selection_groups`: filter the
non-empty groups; with none, return failure (`False`) having written
nothing; otherwise range-check the mask assignments (numpy raises an
IndexError on an out-of-range face id, before the output file is
opened) and emit one solid per non-empty group named `Group <i+1>` —
preceded, when the full mesh is exported, by the unselected remainder as
a solid named `Body` when that remainder is non-empty. -/
def export_body (m : TriMesh) (groups : List (Finset ℕ)) (onlySelected : Bool) :
    Except PyErr (Bool × Option (List Solid)) :=
  let nonEmpty := groups.filter (fun g => 0 < g.card)
  if nonEmpty.isEmpty then Except.ok (false, none)
  else if onlySelected then
    if ∀ g ∈ nonEmpty, ∀ id ∈ g, id < nFaces m then
      Except.ok (true, some (nonEmpty.enum.map (fun p =>
        write_ascii_stl_solid (extract_cells m p.2)
          ("Group " ++ toString (p.1 + 1)))))
    else Except.error PyErr.indexError
  else
    let allSelected := nonEmpty.foldr (fun g acc => g ∪ acc) ∅
    if ∀ id ∈ allSelected, id < nFaces m then
      let bodyFaces := Finset.range (nFaces m) \ allSelected
      let bodySolids :=
        if bodyFaces.Nonempty then [write_ascii_stl_solid (extract_cells m bodyFaces) "Body"]
        else []
      Except.ok (true, some (bodySolids ++ nonEmpty.enum.map (fun p =>
        write_ascii_stl_solid (extract_cells m p.2)
          ("Group " ++ toString (p.1 + 1)))))
    else Except.error PyErr.indexError

/-- `export_selection_groups` from `stller.py`: the whole body runs inside
`try: ... except Exception: return False`, so any exception raised inside
is caught and reported as the failure result `False` (with no output
file, since the raising mask assignments precede the file open). -/
def export_selection_groups (m : TriMesh) (groups : List (Finset ℕ))
    (onlySelected : Bool) : Bool × Option (List Solid) :=
  match export_body m groups onlySelected with
  | Except.ok r => r
  | Except.error _ => (false, none)

lemma mem_foldr_union (l : List (Finset ℕ)) (x : ℕ) :
    x ∈ l.foldr (fun g acc => g ∪ acc) ∅ ↔ ∃ g ∈ l, x ∈ g := by
  induction l with
  | nil => simp
  | cons a l ih => simp [List.foldr, ih]

lemma vertexPos_extract (m : TriMesh) (g : Finset ℕ) (v : ℕ) (hv : v ∈ usedVerts m g) :
    vertexPos (extract_cells m g) ((usedVerts m g).indexOf v) = vertexPos m v := by
  have hlt : (usedVerts m g).indexOf v < (usedVerts m g).length :=
    List.indexOf_lt_length.mpr hv
  simp only [vertexPos, extract_cells]
  rw [List.getElem?_map, List.getElem?_eq_getElem hlt]
  simp [List.getElem_indexOf hlt]

lemma write_extract_eq (m : TriMesh) (g : Finset ℕ) (hr : ∀ f ∈ g, f < nFaces m)
    (name : String) :
    write_ascii_stl_solid (extract_cells m g) name =
      { name := name
        facets := (keptList g).map (fun f =>
          { normal := faceNormal m f
            verts := (faceVertIds m f).map (vertexPos m) }) } := by
  have hsub : nFaces (extract_cells m g) = (keptList g).length := by
    simp [nFaces, extract_cells, keptFaces]
  simp only [write_ascii_stl_solid, Solid.mk.injEq, true_and]
  apply List.ext_getElem
  · simp [hsub]
  intro j hj1 hj2
  simp only [List.get_eq_getElem, List.getElem_map, List.getElem_range]
  have hjk : j < (keptList g).length := by
    simpa [hsub] using hj1
  have hmem : (keptList g)[j] ∈ g :=
    (Finset.mem_sort (fun a b => a ≤ b)).mp (List.getElem_mem hjk)
  have hflt : (keptList g)[j] < nFaces m := hr _ hmem
  obtain ⟨t, hget⟩ : ∃ t, m.faces[(keptList g)[j]]? = some t :=
    ⟨_, List.getElem?_eq_getElem hflt⟩
  have hkf : (keptFaces m g)[j]? = some t := by
    simp [keptFaces, List.getElem?_map, List.getElem?_eq_getElem hjk, hget]
  have htmem : t ∈ keptFaces m g := by
    obtain ⟨hlt, heq⟩ := List.getElem?_eq_some.mp hkf
    rw [← heq]
    exact List.getElem_mem hlt
  have h1 : t.1 ∈ usedVerts m g := by
    simp only [usedVerts, List.mem_dedup, List.mem_flatMap]
    exact ⟨t, htmem, by simp⟩
  have h2 : t.2.1 ∈ usedVerts m g := by
    simp only [usedVerts, List.mem_dedup, List.mem_flatMap]
    exact ⟨t, htmem, by simp⟩
  have h3 : t.2.2 ∈ usedVerts m g := by
    simp only [usedVerts, List.mem_dedup, List.mem_flatMap]
    exact ⟨t, htmem, by simp⟩
  have hsf : (extract_cells m g).faces[j]? =
      some ((usedVerts m g).indexOf t.1, (usedVerts m g).indexOf t.2.1,
        (usedVerts m g).indexOf t.2.2) := by
    simp only [extract_cells]
    rw [List.getElem?_map, hkf]
    rfl
  have hids : faceVertIds (extract_cells m g) j =
      [(usedVerts m g).indexOf t.1, (usedVerts m g).indexOf t.2.1,
        (usedVerts m g).indexOf t.2.2] := by
    simp [faceVertIds, hsf]
  have hidso : faceVertIds m ((keptList g)[j]) = [t.1, t.2.1, t.2.2] := by
    simp [faceVertIds, hget]
  have hnrm : faceNormal (extract_cells m g) j = faceNormal m ((keptList g)[j]) := by
    simp [faceNormal, hsf, hget, vertexPos_extract m g _ h1,
      vertexPos_extract m g _ h2, vertexPos_extract m g _ h3]
  simp only [Facet.mk.injEq]
  refine ⟨hnrm, ?_⟩
  rw [hids, hidso]
  simp [vertexPos_extract m g _ h1, vertexPos_extract m g _ h2,
    vertexPos_extract m g _ h3]

lemma dot3_self_pos (v : Vec3) (h : v ≠ zero3) : 0 < dot3 v v := by
  rcases v with ⟨x, y, z⟩
  have hx : x * x + y * y + z * z ≠ 0 := by
    intro h0
    apply h
    have hx2 : x * x = 0 := by nlinarith [mul_self_nonneg x, mul_self_nonneg y, mul_self_nonneg z]
    have hy2 : y * y = 0 := by nlinarith [mul_self_nonneg x, mul_self_nonneg y, mul_self_nonneg z]
    have hz2 : z * z = 0 := by nlinarith [mul_self_nonneg x, mul_self_nonneg y, mul_self_nonneg z]
    have : x = 0 := mul_self_eq_zero.mp hx2
    have : y = 0 := mul_self_eq_zero.mp hy2
    have : z = 0 := mul_self_eq_zero.mp hz2
    simp_all [zero3]
  have hnn : 0 ≤ x * x + y * y + z * z :=
    add_nonneg (add_nonneg (mul_self_nonneg x) (mul_self_nonneg y)) (mul_self_nonneg z)
  have : 0 < x * x + y * y + z * z := lt_of_le_of_ne hnn (Ne.symm hx)
  simpa [dot3] using this

lemma dot3_normalize_self (v : Vec3) (h : v ≠ zero3) :
    dot3 (normalize3 v) (normalize3 v) = 1 := by
  have hpos : 0 < dot3 v v := dot3_self_pos v h
  have hs : 0 < norm3 v := by
    simpa [norm3] using Real.sqrt_pos.mpr hpos
  have hss : norm3 v * norm3 v = dot3 v v := by
    simpa [norm3] using Real.mul_self_sqrt hpos.le
  rcases v with ⟨x, y, z⟩
  simp only [normalize3, dot3] at *
  field_simp
  linarith [hss]

lemma dot3_zero_left (v : Vec3) : dot3 zero3 v = 0 := by
  rcases v with ⟨x, y, z⟩
  simp [dot3, zero3]

lemma dot3_neg_left (u v : Vec3) : dot3 (smul3 (-1) u) v = -(dot3 u v) := by
  rcases u with ⟨a, b, c⟩; rcases v with ⟨x, y, z⟩
  simp [dot3, smul3]; ring

lemma triNormal_of_cross (pa pb pc cr : Vec3)
    (h : cross3 (sub3 pb pa) (sub3 pc pa) = cr) (hne : cr ≠ zero3) :
    triNormal pa pb pc = normalize3 cr := by
  simp [triNormal, h, hne]

lemma triNormal_of_degenerate (pa pb pc : Vec3)
    (h : cross3 (sub3 pb pa) (sub3 pc pa) = zero3) :
    triNormal pa pb pc = zero3 := by
  simp [triNormal, h]

lemma normalize3_eval (x y z s : ℝ) (hs : Real.sqrt (x * x + y * y + z * z) = s) :
    normalize3 (x, y, z) = (x / s, y / s, z / s) := by
  simp [normalize3, norm3, dot3, hs]

/-- Example mesh: a unit square in the plane `z = 0` split into two
triangles sharing the edge between vertices 1 and 2. -/
def exMesh : TriMesh :=
  { vertices := [((0 : ℝ), (0 : ℝ), (0 : ℝ)), ((1 : ℝ), (0 : ℝ), (0 : ℝ)),
      ((0 : ℝ), (1 : ℝ), (0 : ℝ)), ((1 : ℝ), (1 : ℝ), (0 : ℝ))]
    faces := [(0, 1, 2), (1, 3, 2)]
    storedNormals := none }

/-- Example mesh: a single triangle wound clockwise when seen from above,
so its normal is `(0, 0, -1)` and its cross product has norm 2. -/
def exM2 : TriMesh :=
  { vertices := [((0 : ℝ), (0 : ℝ), (0 : ℝ)), ((0 : ℝ), (1 : ℝ), (0 : ℝ)),
      ((2 : ℝ), (0 : ℝ), (0 : ℝ))]
    faces := [(0, 1, 2)]
    storedNormals := none }

/-- Example mesh: a single counterclockwise triangle with unit normal
`(0, 0, 1)`. -/
def exM3 : TriMesh :=
  { vertices := [((0 : ℝ), (0 : ℝ), (0 : ℝ)), ((1 : ℝ), (0 : ℝ), (0 : ℝ)),
      ((0 : ℝ), (1 : ℝ), (0 : ℝ))]
    faces := [(0, 1, 2)]
    storedNormals := none }

/-- Example mesh: a single zero-area (collinear) triangle, whose normal is
therefore the zero vector. -/
def exDeg : TriMesh :=
  { vertices := [((0 : ℝ), (0 : ℝ), (0 : ℝ)), ((1 : ℝ), (0 : ℝ), (0 : ℝ)),
      ((2 : ℝ), (0 : ℝ), (0 : ℝ))]
    faces := [(0, 1, 2)]
    storedNormals := none }

lemma sqrt_four : Real.sqrt 4 = 2 := by
  rw [show (4 : ℝ) = 2 ^ 2 by norm_num]
  exact Real.sqrt_sq (by norm_num)

lemma faceNormal_exM2 : faceNormal exM2 0 = ((0 : ℝ), (0 : ℝ), (-1 : ℝ)) := by
  have h4 : Real.sqrt ((0 : ℝ) * 0 + 0 * 0 + -2 * -2) = 2 := by
    norm_num [sqrt_four]
  show triNormal ((0 : ℝ), (0 : ℝ), (0 : ℝ)) ((0 : ℝ), (1 : ℝ), (0 : ℝ))
      ((2 : ℝ), (0 : ℝ), (0 : ℝ)) = _
  rw [triNormal_of_cross _ _ _ ((0 : ℝ), (0 : ℝ), (-2 : ℝ))
    (by norm_num [cross3, sub3]) (by norm_num [zero3, Prod.ext_iff])]
  rw [normalize3_eval _ _ _ 2 (by norm_num [sqrt_four])]
  norm_num

lemma faceNormal_exM3 : faceNormal exM3 0 = ((0 : ℝ), (0 : ℝ), (1 : ℝ)) := by
  have h1 : Real.sqrt ((0 : ℝ) * 0 + 0 * 0 + 1 * 1) = 1 := by
    norm_num
  show triNormal ((0 : ℝ), (0 : ℝ), (0 : ℝ)) ((1 : ℝ), (0 : ℝ), (0 : ℝ))
      ((0 : ℝ), (1 : ℝ), (0 : ℝ)) = _
  rw [triNormal_of_cross _ _ _ ((0 : ℝ), (0 : ℝ), (1 : ℝ))
    (by norm_num [cross3, sub3]) (by norm_num [zero3, Prod.ext_iff])]
  rw [normalize3_eval _ _ _ 1 (by norm_num [h1])]
  norm_num

lemma faceNormal_exDeg : faceNormal exDeg 0 = zero3 := by
  show triNormal ((0 : ℝ), (0 : ℝ), (0 : ℝ)) ((1 : ℝ), (0 : ℝ), (0 : ℝ))
      ((2 : ℝ), (0 : ℝ), (0 : ℝ)) = _
  exact triNormal_of_degenerate _ _ _ (by norm_num [cross3, sub3, zero3])

lemma normalize3_e3 : normalize3 ((0 : ℝ), (0 : ℝ), (1 : ℝ)) = ((0 : ℝ), (0 : ℝ), (1 : ℝ)) := by
  rw [normalize3_eval _ _ _ 1 (by norm_num)]
  norm_num

/-- C5: for every mesh and in-range face ids `f1`, `f2`, the adjacency
relation built by `select_faces_by_region_growing` is symmetric, no face
is its own neighbor, and two faces are neighbors exactly when they are
distinct and share at least one vertex. -/
theorem c5_adjacency_symmetric (m : TriMesh) (f1 f2 : ℕ)
    (h1 : f1 < nFaces m) (h2 : f2 < nFaces m) :
    (f2 ∈ cellNeighbors m f1 ↔ f1 ∈ cellNeighbors m f2) ∧
    f1 ∉ cellNeighbors m f1 ∧
    (f2 ∈ cellNeighbors m f1 ↔
      f1 ≠ f2 ∧ ∃ v ∈ faceVertIds m f1, v ∈ faceVertIds m f2) := by
  rw [cellNeighbors_eq_neighborsOf]
  simp only [neighborsOf, Finset.mem_filter, Finset.mem_range]
  refine ⟨⟨?_, ?_⟩, ?_, ⟨?_, ?_⟩⟩
  · rintro ⟨-, hne, v, hva, hvb⟩
    exact ⟨h1, fun h => hne h.symm, v, hvb, hva⟩
  · rintro ⟨-, hne, v, hva, hvb⟩
    exact ⟨h2, fun h => hne h.symm, v, hvb, hva⟩
  · rintro ⟨-, hne, -⟩
    exact hne rfl
  · rintro ⟨-, hne, hex⟩
    exact ⟨fun h => hne h.symm, hex⟩
  · rintro ⟨hne, hex⟩
    exact ⟨h2, fun h => hne h.symm, hex⟩

/-- C5 witness: the two triangles of the example square are mutual
neighbors, sharing the vertices 1 and 2. -/
theorem c5_adjacency_symmetric_witness :
    0 < nFaces exMesh ∧ 1 < nFaces exMesh ∧
      ((1 ∈ cellNeighbors exMesh 0 ↔ 0 ∈ cellNeighbors exMesh 1) ∧
        0 ∉ cellNeighbors exMesh 0 ∧
        (1 ∈ cellNeighbors exMesh 0 ↔
          0 ≠ 1 ∧ ∃ v ∈ faceVertIds exMesh 0, v ∈ faceVertIds exMesh 1)) :=
  ⟨by decide, by decide, c5_adjacency_symmetric exMesh 0 1 (by decide) (by decide)⟩

/-- C3: the bounding-box rule selects exactly the in-range faces whose
centroid lies in the closed interval on every axis, and an inverted box
(some minimum above its maximum) selects nothing, without error. -/
theorem c3_bbox_characterization (m : TriMesh) (xmin xmax ymin ymax zmin zmax : ℝ) :
    (∀ f, f ∈ bbox_patch m xmin xmax ymin ymax zmin zmax ↔
      f < nFaces m ∧
      xmin ≤ (triangles_center m f).1 ∧ (triangles_center m f).1 ≤ xmax ∧
      ymin ≤ (triangles_center m f).2.1 ∧ (triangles_center m f).2.1 ≤ ymax ∧
      zmin ≤ (triangles_center m f).2.2 ∧ (triangles_center m f).2.2 ≤ zmax) ∧
    ((xmax < xmin ∨ ymax < ymin ∨ zmax < zmin) →
      bbox_patch m xmin xmax ymin ymax zmin zmax = ∅) := by
  constructor
  · intro f
    simp [bbox_patch, Finset.mem_filter, Finset.mem_range]
  · intro h
    ext f
    simp only [bbox_patch, Finset.mem_filter, Finset.mem_range,
      Finset.not_mem_empty, iff_false]
    rintro ⟨-, ha, hb, hc, hd, he, hf⟩
    rcases h with h | h | h <;> linarith

/-- C3 witness: an inverted box on the x axis selects nothing on the
example square. -/
theorem c3_bbox_characterization_witness :
    ((0 : ℝ) < 1 ∨ (0 : ℝ) < 0 ∨ (0 : ℝ) < 0) ∧
      bbox_patch exMesh 1 0 0 0 0 0 = ∅ :=
  ⟨Or.inl zero_lt_one,
    (c3_bbox_characterization exMesh 1 0 0 0 0 0).2 (Or.inl zero_lt_one)⟩

/-- C6: with zero non-empty groups the exporter reports failure as a
result value (`False`) and writes no output; no exception escapes. -/
theorem c6_export_empty (m : TriMesh) (groups : List (Finset ℕ)) (onlySelected : Bool)
    (h : groups.filter (fun g => 0 < g.card) = []) :
    export_selection_groups m groups onlySelected = (false, none) := by
  simp only [export_selection_groups, export_body]
  rw [h]
  simp

/-- C6 witness: a selection containing one empty group exports to
failure with no output file. -/
theorem c6_export_empty_witness :
    (([(∅ : Finset ℕ)]).filter (fun g => 0 < g.card) = []) ∧
      export_selection_groups exMesh [∅] true = (false, none) :=
  ⟨by decide, c6_export_empty exMesh [∅] true (by decide)⟩

lemma rg_fst (m : TriMesh) (seed : ℕ) (tol : ℝ) :
    (select_faces_by_region_growing m seed tol).1 = computeNormalsInplace m := by
  unfold select_faces_by_region_growing
  split <;> rfl

/-- C10 counterexample: region growing does not leave the mesh unchanged —
it stores freshly computed normal data on the mesh
(`compute_normals(..., inplace=True)`), so a mesh with no stored normals
differs after the call. -/
theorem c10_counterexample :
    (select_faces_by_region_growing exMesh 0 15).1 ≠ exMesh := by
  rw [rg_fst]
  intro h
  have h2 := congrArg TriMesh.storedNormals h
  simp [computeNormalsInplace, exMesh] at h2

/-- C10 amended: region growing leaves the vertices and faces unchanged
and replaces the stored normal data with the freshly computed cell
normals; the normal-match and bounding-box rules are embedded as pure
functions of the mesh and have no effect by construction. -/
theorem c10_amended (m : TriMesh) (seed : ℕ) (tol : ℝ) :
    (select_faces_by_region_growing m seed tol).1.vertices = m.vertices ∧
    (select_faces_by_region_growing m seed tol).1.faces = m.faces ∧
    (select_faces_by_region_growing m seed tol).1.storedNormals =
      some ((List.range (nFaces m)).map (faceNormal m)) := by
  simp [rg_fst, computeNormalsInplace]

/-- C1: for every mesh and in-range seed face, the code's region growing
returns exactly the result of the specified breadth-first algorithm
anchored to the seed face normal. -/
theorem c1_region_growing_matches_spec (m : TriMesh) (seed : ℕ) (tol : ℝ)
    (h : seed < nFaces m) :
    (select_faces_by_region_growing m seed tol).2 =
      Except.ok (regionGrowingSpec m seed tol) := by
  simp only [select_faces_by_region_growing, if_pos h]
  rw [growLoop_eq_specLoop, cellNeighbors_eq_neighborsOf]
  rfl

/-- C1 witness: region growing from face 0 of the example square agrees
with the specified algorithm. -/
theorem c1_region_growing_matches_spec_witness :
    0 < nFaces exMesh ∧
      (select_faces_by_region_growing exMesh 0 15).2 =
        Except.ok (regionGrowingSpec exMesh 0 15) :=
  ⟨by decide, c1_region_growing_matches_spec exMesh 0 15 (by decide)⟩

lemma dot3_zero_right (v : Vec3) : dot3 v zero3 = 0 := by
  rcases v with ⟨x, y, z⟩
  simp [dot3, zero3]

lemma abs_neg_two : |(-2 : ℝ)| = 2 := by
  rw [abs_of_nonpos (by norm_num : (-2 : ℝ) ≤ 0)]
  norm_num

lemma abs_neg_one : |(-1 : ℝ)| = 1 := by
  rw [abs_of_nonpos (by norm_num : (-1 : ℝ) ≤ 0)]
  norm_num

/-- C2 counterexample: on a one-face mesh whose normal is exactly
anti-parallel to the target `(0, 0, 1)`, tolerance 3 matches the face
(its cosine distance is 2, and 2 < 3), so anti-parallel faces are not
"never matched" for every tolerance. -/
theorem c2_counterexample :
    faceNormal exM2 0 = smul3 (-1) (normalize3 ((0 : ℝ), (0 : ℝ), (1 : ℝ))) ∧
      0 ∈ select_faces_by_normal exM2 ((0 : ℝ), (0 : ℝ), (1 : ℝ)) 3 := by
  constructor
  · rw [faceNormal_exM2, normalize3_e3]
    norm_num [smul3]
  · simp only [select_faces_by_normal, Finset.mem_filter, Finset.mem_range]
    refine ⟨by norm_num [nFaces, exM2], ?_⟩
    rw [faceNormal_exM2, normalize3_e3]
    rw [show dot3 ((0 : ℝ), (0 : ℝ), (-1 : ℝ)) ((0 : ℝ), (0 : ℝ), (1 : ℝ)) - 1 = -2 by
      norm_num [dot3]]
    rw [abs_neg_two]
    norm_num

/-- C2 amended: the normal-match rule returns exactly the in-range faces
with `|dot(n, targetUnit) - 1| < tol` (strict), and an anti-parallel face
is never matched whenever the tolerance is at most 2 (its cosine distance
is exactly 2); a tolerance above 2 does match anti-parallel faces. -/
theorem c2_amended (m : TriMesh) (target : Vec3) (tol : ℝ) (h : target ≠ zero3) :
    (∀ f, f ∈ select_faces_by_normal m target tol ↔
      f < nFaces m ∧ |dot3 (faceNormal m f) (normalize3 target) - 1| < tol) ∧
    (tol ≤ 2 → ∀ f, faceNormal m f = smul3 (-1) (normalize3 target) →
      f ∉ select_faces_by_normal m target tol) := by
  constructor
  · intro f
    simp [select_faces_by_normal]
  · intro htol f hf
    simp only [select_faces_by_normal, Finset.mem_filter, Finset.mem_range, not_and]
    intro _
    rw [hf, dot3_neg_left, dot3_normalize_self target h]
    rw [show -(1 : ℝ) - 1 = -2 by norm_num]
    rw [abs_neg_two]
    exact not_lt.mpr htol

/-- C2 witness: the amended characterization instantiated on the
anti-parallel example mesh with target `(0, 0, 1)` and tolerance `3/2`. -/
theorem c2_amended_witness :
    ((((0 : ℝ), (0 : ℝ), (1 : ℝ)) : Vec3) ≠ zero3) ∧ (3 / 2 : ℝ) ≤ 2 ∧
      faceNormal exM2 0 = smul3 (-1) (normalize3 ((0 : ℝ), (0 : ℝ), (1 : ℝ))) ∧
      0 ∉ select_faces_by_normal exM2 ((0 : ℝ), (0 : ℝ), (1 : ℝ)) (3 / 2) := by
  have hne : ((((0 : ℝ), (0 : ℝ), (1 : ℝ))) : Vec3) ≠ zero3 := by
    simp [zero3, Prod.ext_iff]
  have hf : faceNormal exM2 0 = smul3 (-1) (normalize3 ((0 : ℝ), (0 : ℝ), (1 : ℝ))) := by
    rw [faceNormal_exM2, normalize3_e3]
    norm_num [smul3]
  exact ⟨hne, by norm_num,  hf,
    (c2_amended exM2 ((0 : ℝ), (0 : ℝ), (1 : ℝ)) (3 / 2) hne).2 (by norm_num) 0 hf⟩

/-- C7 counterexample: with zero tolerance even a face whose normal equals
the normalized target exactly is not matched, because the comparison is
the strict `|d - 1| < tol`; so tolerance 0 does not match exactly
parallel faces. -/
theorem c7_counterexample :
    faceNormal exM3 0 = normalize3 ((0 : ℝ), (0 : ℝ), (1 : ℝ)) ∧
      0 ∉ select_faces_by_normal exM3 ((0 : ℝ), (0 : ℝ), (1 : ℝ)) 0 := by
  refine ⟨by rw [faceNormal_exM3, normalize3_e3], ?_⟩
  simp only [select_faces_by_normal, Finset.mem_filter, Finset.mem_range, not_and]
  intro _
  exact not_lt.mpr (abs_nonneg _)

/-- C7 amended: a face whose normal equals the normalized target exactly
is matched for every strictly positive tolerance, and zero tolerance
matches no face at all (the comparison is strict). -/
theorem c7_amended (m : TriMesh) (target : Vec3) (tol : ℝ) (h : target ≠ zero3) :
    (∀ f, f < nFaces m → faceNormal m f = normalize3 target → 0 < tol →
      f ∈ select_faces_by_normal m target tol) ∧
    select_faces_by_normal m target 0 = ∅ := by
  constructor
  · intro f hf hn htol
    simp only [select_faces_by_normal, Finset.mem_filter, Finset.mem_range]
    refine ⟨hf, ?_⟩
    rw [hn, dot3_normalize_self target h]
    simpa using htol
  · ext f
    simp only [select_faces_by_normal, Finset.mem_filter, Finset.mem_range,
      Finset.not_mem_empty, iff_false, not_and]
    intro _
    exact not_lt.mpr (abs_nonneg _)

/-- C7 witness: the exactly-parallel example face is matched at tolerance
1 and the zero-tolerance selection on the same mesh is empty. -/
theorem c7_amended_witness :
    ((((0 : ℝ), (0 : ℝ), (1 : ℝ)) : Vec3) ≠ zero3) ∧ 0 < nFaces exM3 ∧
      faceNormal exM3 0 = normalize3 ((0 : ℝ), (0 : ℝ), (1 : ℝ)) ∧ (0 : ℝ) < 1 ∧
      0 ∈ select_faces_by_normal exM3 ((0 : ℝ), (0 : ℝ), (1 : ℝ)) 1 ∧
      select_faces_by_normal exM3 ((0 : ℝ), (0 : ℝ), (1 : ℝ)) 0 = ∅ := by
  have hne : ((((0 : ℝ), (0 : ℝ), (1 : ℝ))) : Vec3) ≠ zero3 := by
    simp [zero3, Prod.ext_iff]
  have hnf : faceNormal exM3 0 = normalize3 ((0 : ℝ), (0 : ℝ), (1 : ℝ)) := by
    rw [faceNormal_exM3, normalize3_e3]
  exact ⟨hne, by decide, hnf, one_pos,
    (c7_amended exM3 ((0 : ℝ), (0 : ℝ), (1 : ℝ)) 1 hne).1 0 (by decide) hnf one_pos,
    (c7_amended exM3 ((0 : ℝ), (0 : ℝ), (1 : ℝ)) 1 hne).2⟩

/-- C8 counterexample: a zero-area face (normal the zero vector) is
matched by the normal-match rule at tolerance 2, since its cosine
distance to any normalized target is exactly 1 and 1 < 2; so it does
participate in some tolerance matches. -/
theorem c8_counterexample :
    faceNormal exDeg 0 = zero3 ∧
      0 ∈ select_faces_by_normal exDeg ((0 : ℝ), (0 : ℝ), (1 : ℝ)) 2 := by
  refine ⟨faceNormal_exDeg, ?_⟩
  simp only [select_faces_by_normal, Finset.mem_filter, Finset.mem_range]
  refine ⟨by norm_num [nFaces, exDeg], ?_⟩
  rw [faceNormal_exDeg, dot3_zero_left]
  rw [show (0 : ℝ) - 1 = -1 by norm_num]
  rw [abs_neg_one]
  norm_num

/-- C8 amended: a face with the zero normal is excluded from every
normal match with tolerance at most 1 (its cosine distance is exactly 1)
and fails the region-growing angle test for every tolerance below 90
degrees (its angle to any seed normal evaluates to exactly 90). -/
theorem c8_amended (m : TriMesh) (f : ℕ) (h : faceNormal m f = zero3) :
    (∀ target tol, tol ≤ 1 → f ∉ select_faces_by_normal m target tol) ∧
    (∀ seedNormal tol, tol < 90 →
      ¬ angleToSeedDeg seedNormal (faceNormal m f) ≤ tol) := by
  constructor
  · intro target tol htol
    simp only [select_faces_by_normal, Finset.mem_filter, Finset.mem_range, not_and]
    intro _
    rw [h, dot3_zero_left]
    rw [show (0 : ℝ) - 1 = -1 by norm_num]
    rw [abs_neg_one]
    exact not_lt.mpr htol
  · intro seedNormal tol htol
    rw [h]
    unfold angleToSeedDeg
    rw [dot3_zero_right]
    rw [show min (max (0 : ℝ) (-1)) 1 = 0 by norm_num]
    rw [Real.arccos_zero]
    rw [show Real.pi / 2 * (180 / Real.pi) = 90 by
      have hpi := Real.pi_ne_zero
      field_simp
      ring]
    exact not_le.mpr htol

/-- C8 witness: the degenerate example face is excluded at tolerance 1/2
and fails the angle test at tolerance 15 degrees. -/
theorem c8_amended_witness :
    faceNormal exDeg 0 = zero3 ∧ (1 / 2 : ℝ) ≤ 1 ∧ (15 : ℝ) < 90 ∧
      0 ∉ select_faces_by_normal exDeg ((0 : ℝ), (0 : ℝ), (1 : ℝ)) (1 / 2) ∧
      ¬ angleToSeedDeg ((0 : ℝ), (0 : ℝ), (1 : ℝ)) (faceNormal exDeg 0) ≤ 15 :=
  ⟨faceNormal_exDeg, by norm_num, by norm_num,
    (c8_amended exDeg 0 faceNormal_exDeg).1 ((0 : ℝ), (0 : ℝ), (1 : ℝ)) (1 / 2) (by norm_num),
    (c8_amended exDeg 0 faceNormal_exDeg).2 ((0 : ℝ), (0 : ℝ), (1 : ℝ)) 15 (by norm_num)⟩

lemma export_body_error_of_oob (m : TriMesh) (groups : List (Finset ℕ))
    (onlySelected : Bool)
    (h : ∃ g ∈ groups.filter (fun g => 0 < g.card), ∃ id ∈ g, nFaces m ≤ id) :
    export_body m groups onlySelected = Except.error PyErr.indexError := by
  rcases h with ⟨g, hg, id, hid, hod⟩
  have hne : ¬ ((groups.filter (fun g => 0 < g.card)).isEmpty = true) := by
    intro he
    rw [List.isEmpty_iff] at he
    rw [he] at hg
    exact List.not_mem_nil _ hg
  simp only [export_body]
  rw [if_neg hne]
  cases onlySelected with
  | true =>
    rw [if_pos rfl]
    rw [if_neg ?hc]
    case hc =>
      intro hall
      exact absurd (hall g hg id hid) (not_lt.mpr hod)
  | false =>
    rw [if_neg (by simp)]
    rw [if_neg ?hc2]
    case hc2 =>
      intro hall
      have hmem : id ∈ (groups.filter (fun g => 0 < g.card)).foldr
          (fun g acc => g ∪ acc) ∅ :=
        (mem_foldr_union _ _).mpr ⟨g, hg, hid⟩
      exact absurd (hall id hmem) (not_lt.mpr hod)

/-- C9 counterexample: exporting a group holding the out-of-range face id
5 on a one-face mesh raises an IndexError inside `export_selection_groups`
(at the numpy mask assignment), but the surrounding
`try: ... except Exception: return False` catches it and reports the
failure result `False` — the IndexError does not reach the caller. -/
theorem c9_counterexample :
    export_body exM2 [{5}] true = Except.error PyErr.indexError ∧
      export_selection_groups exM2 [{5}] true = (false, none) := by
  have hb : export_body exM2 [{5}] true = Except.error PyErr.indexError :=
    export_body_error_of_oob exM2 [{5}] true (by decide)
  refine ⟨hb, ?_⟩
  unfold export_selection_groups
  rw [hb]

/-- C9 amended: region growing with an out-of-range seed face fails with
an IndexError that propagates to its caller; export with a group holding
an out-of-range face id also raises an IndexError internally, but the
exception handler of `export_selection_groups` recovers it into the
failure result `False` with no output file, so it does not reach the
caller. -/
theorem c9_amended :
    (∀ (m : TriMesh) (seed : ℕ) (tol : ℝ), nFaces m ≤ seed →
      (select_faces_by_region_growing m seed tol).2 = Except.error PyErr.indexError) ∧
    (∀ (m : TriMesh) (groups : List (Finset ℕ)) (onlySelected : Bool),
      (∃ g ∈ groups.filter (fun g => 0 < g.card), ∃ id ∈ g, nFaces m ≤ id) →
      export_body m groups onlySelected = Except.error PyErr.indexError ∧
      export_selection_groups m groups onlySelected = (false, none)) := by
  constructor
  · intro m seed tol h
    simp only [select_faces_by_region_growing, if_neg (not_lt.mpr h)]
  · intro m groups onlySelected h
    have hb := export_body_error_of_oob m groups onlySelected h
    refine ⟨hb, ?_⟩
    unfold export_selection_groups
    rw [hb]

/-- C9 witness: the amended behavior at concrete inputs — seed 5 on a
one-face mesh propagates the IndexError from region growing, and export
of the group `{5}` with the full-mesh layout returns the failure value. -/
theorem c9_amended_witness :
    nFaces exM2 ≤ 5 ∧
      (select_faces_by_region_growing exM2 5 15).2 = Except.error PyErr.indexError ∧
      (∃ g ∈ ([{5}] : List (Finset ℕ)).filter (fun g => 0 < g.card),
        ∃ id ∈ g, nFaces exM2 ≤ id) ∧
      export_selection_groups exM2 [{5}] false = (false, none) :=
  ⟨by decide, c9_amended.1 exM2 5 15 (by decide), by decide,
    (c9_amended.2 exM2 [{5}] false (by decide)).2⟩

lemma forall2_near_refl (vs : List Vec3) :
    List.Forall₂ (fun (p q : Vec3) =>
      |p.1 - q.1| ≤ 1 / 1000000 ∧ |p.2.1 - q.2.1| ≤ 1 / 1000000 ∧
      |p.2.2 - q.2.2| ≤ 1 / 1000000) vs vs := by
  induction vs with
  | nil => exact List.Forall₂.nil
  | cons v vs ih =>
    refine List.Forall₂.cons ⟨?_, ?_, ?_⟩ ih <;>
      simp only [sub_self, abs_zero] <;> norm_num

lemma forall2_map_left {α β : Type} (R : β → α → Prop) (F : α → β) (l : List α)
    (h : ∀ a ∈ l, R (F a) a) : List.Forall₂ R (l.map F) l := by
  induction l with
  | nil => exact List.Forall₂.nil
  | cons a l ih =>
    exact List.Forall₂.cons (h a (List.mem_cons_self a l))
      (ih (fun x hx => h x (List.mem_cons_of_mem a hx)))

lemma export_single_solid (m : TriMesh) (groups : List (Finset ℕ)) (g : Finset ℕ)
    (hfil : groups.filter (fun s => 0 < s.card) = [g])
    (hrange : ∀ f ∈ g, f < nFaces m) :
    export_selection_groups m groups true =
      (true, some [write_ascii_stl_solid (extract_cells m g) "Group 1"]) := by
  have hb : export_body m groups true =
      Except.ok (true, some [write_ascii_stl_solid (extract_cells m g) "Group 1"]) := by
    simp only [export_body]
    rw [hfil]
    rw [if_neg (by simp : ¬ (([g] : List (Finset ℕ)).isEmpty = true))]
    rw [if_pos trivial]
    rw [if_pos ?hp]
    case hp =>
      intro g2 hg2 id hid
      rw [List.mem_singleton] at hg2
      subst hg2
      exact hrange id hid
    simp only [List.enum, List.enumFrom, List.map]
    rfl
  unfold export_selection_groups
  rw [hb]

/-- C4: with exactly one non-empty selection group of `k` distinct
in-range face ids, exporting with `only_selected=True` produces exactly
one solid block named `Group 1` with exactly `k` facets, whose vertex
lines equal the original face vertex positions (hence agree within
`1e-6`), the kept faces listed in ascending face id. -/
theorem c4_export_one_group (m : TriMesh) (groups : List (Finset ℕ)) (g : Finset ℕ)
    (k : ℕ) (hfil : groups.filter (fun s => 0 < s.card) = [g])
    (hrange : ∀ f ∈ g, f < nFaces m) (hk : g.card = k) :
    ∃ facets : List Facet,
      export_selection_groups m groups true =
        (true, some [{ name := "Group 1", facets := facets }]) ∧
      facets.length = k ∧
      List.Forall₂ (fun (fc : Facet) (f : ℕ) =>
        fc.verts = (faceVertIds m f).map (vertexPos m) ∧
        List.Forall₂ (fun (p q : Vec3) =>
          |p.1 - q.1| ≤ 1 / 1000000 ∧ |p.2.1 - q.2.1| ≤ 1 / 1000000 ∧
          |p.2.2 - q.2.2| ≤ 1 / 1000000) fc.verts ((faceVertIds m f).map (vertexPos m)))
        facets (keptList g) := by
  refine ⟨(keptList g).map (fun f =>
    { normal := faceNormal m f, verts := (faceVertIds m f).map (vertexPos m) }), ?_, ?_, ?_⟩
  · rw [export_single_solid m groups g hfil hrange, write_extract_eq m g hrange]
  · rw [List.length_map, keptList, Finset.length_sort, hk]
  · exact forall2_map_left _ _ _ (fun f hf => ⟨rfl, forall2_near_refl _⟩)

/-- C4 witness: exporting the single group `{0, 1}` of the example square
with `only_selected=True` yields one solid `Group 1` with two facets
matching the two original triangles. -/
theorem c4_export_one_group_witness :
    (([({0, 1} : Finset ℕ)]).filter (fun s => 0 < s.card) = [({0, 1} : Finset ℕ)]) ∧
      (∀ f ∈ ({0, 1} : Finset ℕ), f < nFaces exMesh) ∧
      ({0, 1} : Finset ℕ).card = 2 ∧
      ∃ facets : List Facet,
        export_selection_groups exMesh [{0, 1}] true =
          (true, some [{ name := "Group 1", facets := facets }]) ∧
        facets.length = 2 ∧
        List.Forall₂ (fun (fc : Facet) (f : ℕ) =>
          fc.verts = (faceVertIds exMesh f).map (vertexPos exMesh) ∧
          List.Forall₂ (fun (p q : Vec3) =>
            |p.1 - q.1| ≤ 1 / 1000000 ∧ |p.2.1 - q.2.1| ≤ 1 / 1000000 ∧
            |p.2.2 - q.2.2| ≤ 1 / 1000000) fc.verts
            ((faceVertIds exMesh f).map (vertexPos exMesh)))
          facets (keptList ({0, 1} : Finset ℕ)) :=
  ⟨by decide, by decide, by decide,
    c4_export_one_group exMesh [{0, 1}] {0, 1} 2 (by decide) (by decide) (by decide)⟩
